import Mathlib

/-!
Verification of the drawer widget (src/Drawer.tsx, src/Overlay.tsx).

The gesture and animation logic is shallowly embedded over the rationals:
every numeric value of the source (offsets, translations, velocities,
widths) becomes a rational number, enumerated string unions become small
inductive types, and the reactive pieces become explicit functions of the
frame values they read.
-/

namespace Drawer

/-- The drawerPosition prop: the union type in src/Drawer.tsx. -/
inductive DrawerPosition where
  | left
  | right
  deriving DecidableEq, Repr

/-- The drawerType prop: the union type in src/Drawer.tsx. -/
inductive DrawerType where
  | front
  | back
  | slide
  | permanent
  deriving DecidableEq, Repr

/-- Gesture handler state, as read from gestureState.value in the source.
Only the active state matters to the embedded logic. -/
inductive GestureState where
  | undetermined
  | began
  | active
  | ended
  deriving DecidableEq, Repr

/-- Constant SWIPE_DISTANCE_MINIMUM = 5 in src/Drawer.tsx. -/
def SWIPE_DISTANCE_MINIMUM : ℚ := 5

/-- Constant SWIPE_DISTANCE_THRESHOLD_DEFAULT = 60 in src/Drawer.tsx. -/
def SWIPE_DISTANCE_THRESHOLD_DEFAULT : ℚ := 60

/-- Math.min on two finite numbers. -/
def jsMin (a b : ℚ) : ℚ := if a ≤ b then a else b

/-- Math.max on two finite numbers. -/
def jsMax (a b : ℚ) : ℚ := if a ≤ b then b else a

/-- The minmax helper defined inside the translateX worklet in
src/Drawer.tsx: Math.min(Math.max(value, start), end). -/
def minmax (value start stop : ℚ) : ℚ :=
  jsMin (jsMax value start) stop

/-- getDrawerTranslationX from src/Drawer.tsx: the target offset for a
given openness, position, drawer width and viewport width. -/
def getDrawerTranslationX (pos : DrawerPosition) (drawerWidth viewportWidth : ℚ)
    (opn : Bool) : ℚ :=
  match pos with
  | .left => if opn then 0 else -drawerWidth
  | .right => if opn then viewportWidth - drawerWidth else viewportWidth

/-- The touchDistance expression inside the translateX worklet in
src/Drawer.tsx: the front-type correction that keeps the drawer still
until the touch reaches its edge.  translationXv is the raw offset shared
value, touchXv the last touch x position. -/
def touchDistance (dtype : DrawerType) (gstate : GestureState)
    (pos : DrawerPosition) (drawerWidth viewportWidth translationXv touchXv : ℚ) : ℚ :=
  if dtype = .front ∧ gstate = .active then
    match pos with
    | .left => jsMin (translationXv - touchXv + drawerWidth) 0
    | .right => jsMin (translationXv - touchXv) (viewportWidth - drawerWidth)
  else 0

/-- The translateX derived value in src/Drawer.tsx: the clamped offset
driving the drawer position. -/
def translateX (dtype : DrawerType) (gstate : GestureState)
    (pos : DrawerPosition) (drawerWidth viewportWidth translationXv touchXv : ℚ) : ℚ :=
  let d := touchDistance dtype gstate pos drawerWidth viewportWidth translationXv touchXv
  match pos with
  | .left => minmax (translationXv - d) (-drawerWidth) 0
  | .right =>
      minmax (translationXv - d) (viewportWidth - drawerWidth) viewportWidth

/-- The nextOpen decision in onGestureEvent.onEnd of src/Drawer.tsx,
with the parenthesisation exactly as written there:
(|t| > SWIPE_DISTANCE_MINIMUM and |t| > swipeVelocityThreshold) or
|t| > swipeDistanceThreshold decides by direction, otherwise the current
requested openness is kept. -/
def nextOpen (swipeDistanceThreshold swipeVelocityThreshold : ℚ)
    (pos : DrawerPosition) (translationX velocityX : ℚ) (opn : Bool) : Bool :=
  if (|translationX| > SWIPE_DISTANCE_MINIMUM ∧
        |translationX| > swipeVelocityThreshold) ∨
      |translationX| > swipeDistanceThreshold then
    match pos with
    | .left => decide ((if velocityX = 0 then translationX else velocityX) > 0)
    | .right => decide ((if velocityX = 0 then translationX else velocityX) < 0)
  else opn

/-- The effective horizontal speed of the spec: velocity when nonzero,
else translation.  This matches the inner ternary of onEnd. -/
def effectiveSpeed (translationX velocityX : ℚ) : ℚ :=
  if velocityX = 0 then translationX else velocityX

/-- The gesture-end decision as the CLAIM words it (C2): the minimum
distance gate distributes over both thresholds,
|t| > minimum AND (|t| > swipeVelocityThreshold OR
|t| > swipeDistanceThreshold).  Stated only to be compared with nextOpen,
which is the decision the source actually computes. -/
def specNextOpen (swipeDistanceThreshold swipeVelocityThreshold : ℚ)
    (pos : DrawerPosition) (translationX velocityX : ℚ) (opn : Bool) : Bool :=
  if |translationX| > SWIPE_DISTANCE_MINIMUM ∧
      (|translationX| > swipeVelocityThreshold ∨
        |translationX| > swipeDistanceThreshold) then
    match pos with
    | .left => decide (effectiveSpeed translationX velocityX > 0)
    | .right => decide (effectiveSpeed translationX velocityX < 0)
  else opn

/-- The prepare worklet of useAnimatedReaction in src/Drawer.tsx: classify
the current clamped offset as open (some true), closed (some false) or
in between (none). -/
def classifyOffset (pos : DrawerPosition) (drawerWidth viewportWidth x : ℚ) :
    Option Bool :=
  if x = getDrawerTranslationX pos drawerWidth viewportWidth true then some true
  else if x = getDrawerTranslationX pos drawerWidth viewportWidth false then
    some false
  else none

/-- The reaction side of useAnimatedReaction over a sequence of frames of
the translateX value: the list of setOpen calls made, one entry per frame
whose classification is non-null.  The react worklet invokes setOpen
whenever its input is not null. -/
def setOpenCalls (pos : DrawerPosition) (drawerWidth viewportWidth : ℚ)
    (frames : List ℚ) : List Bool :=
  frames.filterMap (classifyOffset pos drawerWidth viewportWidth)

/-- The setOpen calls when the reaction is only re-run on frames where the
translateX value actually changed: prev is the value of the previous
frame, and a frame equal to it produces no call. -/
def setOpenCallsOnChange (pos : DrawerPosition) (drawerWidth viewportWidth : ℚ) :
    ℚ → List ℚ → List Bool
  | _, [] => []
  | prev, x :: rest =>
      let tail := setOpenCallsOnChange pos drawerWidth viewportWidth x rest
      if x = prev then tail
      else
        match classifyOffset pos drawerWidth viewportWidth x with
        | some b => b :: tail
        | none => tail

/-- The state toggleDrawer in src/Drawer.tsx writes: touchX is reset per
position and translationX is driven by a spring toward the target offset.
springTarget records where the spring settles: overshootClamping with the
tight rest thresholds of the source makes it land on the target. -/
structure ToggleState where
  touchXv : ℚ
  springTarget : ℚ
  deriving DecidableEq, Repr

/-- toggleDrawer from src/Drawer.tsx, as the state it establishes. -/
def toggleDrawer (pos : DrawerPosition) (drawerWidth viewportWidth : ℚ)
    (opn : Bool) : ToggleState :=
  { touchXv := match pos with
      | .left => 0
      | .right => viewportWidth
    springTarget := getDrawerTranslationX pos drawerWidth viewportWidth opn }

/-- applyToggle: toggleDrawer as a transition on the previous state (the
source ignores the previous state entirely; it overwrites both fields). -/
def applyToggle (pos : DrawerPosition) (drawerWidth viewportWidth : ℚ)
    (_prev : ToggleState) (opn : Bool) : ToggleState :=
  toggleDrawer pos drawerWidth viewportWidth opn

/-- The isOpen computation of src/Drawer.tsx:
drawerType === permanent ? true : open. -/
def isOpen (dtype : DrawerType) (opn : Bool) : Bool :=
  if dtype = .permanent then true else opn

/-- The enabled prop handed to PanGestureHandler in src/Drawer.tsx:
drawerType !== permanent && gestureEnabled && swipeEnabled. -/
def gestureHandlerEnabled (dtype : DrawerType)
    (gestureEnabled swipeEnabled : Bool) : Bool :=
  decide (dtype ≠ .permanent) && gestureEnabled && swipeEnabled

/-- The progress derived value of src/Drawer.tsx:
(drawerWidth - |translateX|) / drawerWidth. -/
def progress (drawerWidth translateXv : ℚ) : ℚ :=
  (drawerWidth - |translateXv|) / drawerWidth

/-- The lifecycle events that touch the interaction handle of
src/Drawer.tsx.  gestureStart stands for onGestureStart (run from the
onStart worklet), gestureEnd for onGestureEnd (run from the onEnd
worklet), unmount for component teardown. -/
inductive DrawerEvent where
  | gestureStart
  | gestureEnd
  | unmount
  deriving DecidableEq, Repr

/-- Whether interactionHandleRef holds a live interaction handle after an
event.  startInteraction stores a fresh handle, endInteraction clears it.
No effect in src/Drawer.tsx has a cleanup touching interactionHandleRef,
so unmount leaves the handle as it was. -/
def interactionStep (held : Bool) : DrawerEvent → Bool
  | .gestureStart => true
  | .gestureEnd => false
  | .unmount => held

/-- The interaction handle state after a sequence of lifecycle events,
starting from the initial null ref. -/
def interactionHeldAfter (es : List DrawerEvent) : Bool :=
  es.foldl interactionStep false

/-- Constant PROGRESS_EPSILON = 0.05 in src/Overlay.tsx. -/
def PROGRESS_EPSILON : ℚ := 5 / 100

/-- The opacity of the animated style in src/Overlay.tsx: the progress
value, used directly. -/
def overlayOpacity (p : ℚ) : ℚ := p

/-- The stacking index of the animated style in src/Overlay.tsx:
progress > PROGRESS_EPSILON ? 0 : -1. -/
def overlayZIndex (p : ℚ) : ℤ :=
  if p > PROGRESS_EPSILON then 0 else -1

/-- The gesture-end decision as amended: the parenthesisation of the
source, with the direction expressed through effectiveSpeed. -/
def amendedNextOpen (swipeDistanceThreshold swipeVelocityThreshold : ℚ)
    (pos : DrawerPosition) (translationX velocityX : ℚ) (opn : Bool) : Bool :=
  if (|translationX| > SWIPE_DISTANCE_MINIMUM ∧
        |translationX| > swipeVelocityThreshold) ∨
      |translationX| > swipeDistanceThreshold then
    match pos with
    | .left => decide (effectiveSpeed translationX velocityX > 0)
    | .right => decide (effectiveSpeed translationX velocityX < 0)
  else opn

/-- minmax lands inside the interval whenever the interval is ordered. -/
theorem minmax_mem (v lo hi : ℚ) (h : lo ≤ hi) :
    lo ≤ minmax v lo hi ∧ minmax v lo hi ≤ hi := by
  unfold minmax jsMin jsMax
  split_ifs <;> constructor <;> linarith

/-- Claim C1: for every drawer type, gesture state and raw translation and
touch input, the clamped offset translateX lies within [-width, 0] for a
left-positioned drawer and within
[viewportWidth - width, viewportWidth] for a right-positioned drawer,
provided the resolved drawer width is nonnegative. -/
theorem c1_clamped_offset_bounds (dtype : DrawerType) (gstate : GestureState)
    (w vw translationXv touchXv : ℚ) (hw : 0 ≤ w) :
    (-w ≤ translateX dtype gstate .left w vw translationXv touchXv ∧
      translateX dtype gstate .left w vw translationXv touchXv ≤ 0) ∧
    (vw - w ≤ translateX dtype gstate .right w vw translationXv touchXv ∧
      translateX dtype gstate .right w vw translationXv touchXv ≤ vw) := by
  constructor
  · exact minmax_mem _ _ _ (by linarith)
  · exact minmax_mem _ _ _ (by linarith)

/-- Claim C1 witness: the bounds at a concrete configuration and a raw
offset far beyond the drawer width. -/
theorem c1_clamped_offset_bounds_witness :
    (-(300:ℚ) ≤ translateX .front .active .left 300 400 10000 0 ∧
      translateX .front .active .left 300 400 10000 0 ≤ 0) ∧
    ((400:ℚ) - 300 ≤ translateX .front .active .right 300 400 10000 0 ∧
      translateX .front .active .right 300 400 10000 0 ≤ 400) :=
  c1_clamped_offset_bounds .front .active 300 400 10000 0 (by decide)

/-- Claim C2 counterexample: with swipeDistanceThreshold 2 and
swipeVelocityThreshold 500, a gesture ending with translationX 3 and
velocityX 0 on a closed left drawer is decided by direction in the source
(the drawer opens), while the rule of the claim gates both thresholds
behind the minimum swipe distance of 5 and keeps the current intent
(stays closed). -/
theorem c2_swipe_decision_counterexample :
    nextOpen 2 500 DrawerPosition.left 3 0 false = true ∧
    specNextOpen 2 500 DrawerPosition.left 3 0 false = false :=
  ⟨rfl, rfl⟩

/-- Claim C2 amended: the gesture-end target is decided by the condition
as parenthesised in the source, (|translationX| > 5 AND |translationX| >
swipeVelocityThreshold) OR |translationX| > swipeDistanceThreshold, with
direction chosen by the effective speed; otherwise the current requested
intent is kept, and in particular a gesture ending with zero translation
and zero velocity leaves the intent unchanged whenever the distance
threshold is nonnegative. -/
theorem c2_swipe_decision_amended :
    (∀ (d v : ℚ) (pos : DrawerPosition) (t vel : ℚ) (opn : Bool),
      nextOpen d v pos t vel opn = amendedNextOpen d v pos t vel opn) ∧
    (∀ (d v : ℚ) (pos : DrawerPosition) (opn : Bool), 0 ≤ d →
      nextOpen d v pos 0 0 opn = opn) := by
  constructor
  · intro d v pos t vel opn
    rfl
  · intro d v pos opn hd
    have hcond : ¬((|(0:ℚ)| > SWIPE_DISTANCE_MINIMUM ∧ |(0:ℚ)| > v) ∨
        |(0:ℚ)| > d) := by
      rw [abs_zero]
      push_neg
      refine ⟨fun h => absurd h ?_, by linarith⟩
      simp [SWIPE_DISTANCE_MINIMUM]
    simp only [nextOpen, if_neg hcond]

/-- Claim C2 witness: the tie-break at the default distance threshold,
drawer currently open. -/
theorem c2_swipe_decision_amended_witness :
    nextOpen 60 500 DrawerPosition.left 0 0 true = true :=
  c2_swipe_decision_amended.2 60 500 DrawerPosition.left true (by decide)

/-- Claim C6: the overlay opacity is the progress value unchanged, and
the overlay stacks behind sibling content exactly when the progress is at
most PROGRESS_EPSILON = 0.05, the boundary itself included. -/
theorem c6_overlay_opacity_stacking :
    (∀ p : ℚ, overlayOpacity p = p) ∧
    (∀ p : ℚ, p ≤ PROGRESS_EPSILON → overlayZIndex p = -1) ∧
    (∀ p : ℚ, PROGRESS_EPSILON < p → overlayZIndex p = 0) ∧
    overlayZIndex (4/100) = -1 ∧ overlayZIndex (6/100) = 0 ∧
    overlayZIndex (5/100) = -1 := by
  refine ⟨fun p => rfl, fun p hp => ?_, fun p hp => ?_, ?_, ?_, ?_⟩
  · simp only [overlayZIndex, if_neg (not_lt.mpr hp)]
  · simp only [overlayZIndex, if_pos hp]
  · norm_num [overlayZIndex, PROGRESS_EPSILON]
  · norm_num [overlayZIndex, PROGRESS_EPSILON]
  · norm_num [overlayZIndex, PROGRESS_EPSILON]

/-- Claim C6 witness: at progress exactly PROGRESS_EPSILON the overlay is
behind the content. -/
theorem c6_overlay_opacity_stacking_witness :
    overlayZIndex PROGRESS_EPSILON = -1 :=
  c6_overlay_opacity_stacking.2.1 PROGRESS_EPSILON (le_refl _)

/-- Claim C7: for a permanent drawer the settled openness is always true
and the gesture handler is disabled whatever the gestureEnabled and
swipeEnabled props are. -/
theorem c7_permanent_invariant (opn gestureEnabled swipeEnabled : Bool) :
    isOpen .permanent opn = true ∧
    gestureHandlerEnabled .permanent gestureEnabled swipeEnabled = false :=
  ⟨rfl, rfl⟩

/-- Claim C3: the reaction classifies a frame as some boolean exactly
when the clamped offset equals the corresponding fully-open or
fully-closed target, so over any sequence of frames every setOpen call
carries the openness of a target the offset hit, and no call at all is
made while every frame stays strictly between the targets. -/
theorem c3_settlement_notification (pos : DrawerPosition) (w vw : ℚ) :
    (∀ (x : ℚ) (b : Bool), classifyOffset pos w vw x = some b →
      x = getDrawerTranslationX pos w vw b) ∧
    (∀ x : ℚ, x = getDrawerTranslationX pos w vw true →
      classifyOffset pos w vw x = some true) ∧
    (∀ x : ℚ, x ≠ getDrawerTranslationX pos w vw true →
      x ≠ getDrawerTranslationX pos w vw false →
      classifyOffset pos w vw x = none) ∧
    (∀ (frames : List ℚ) (b : Bool), b ∈ setOpenCalls pos w vw frames →
      getDrawerTranslationX pos w vw b ∈ frames) ∧
    (∀ frames : List ℚ,
      (∀ x ∈ frames, x ≠ getDrawerTranslationX pos w vw true ∧
        x ≠ getDrawerTranslationX pos w vw false) →
      setOpenCalls pos w vw frames = []) := by
  have hsome : ∀ (x : ℚ) (b : Bool), classifyOffset pos w vw x = some b →
      x = getDrawerTranslationX pos w vw b := by
    intro x b h
    unfold classifyOffset at h
    split_ifs at h with h1 h2
    · cases h
      exact h1
    · cases h
      exact h2
  have hnone : ∀ x : ℚ, x ≠ getDrawerTranslationX pos w vw true →
      x ≠ getDrawerTranslationX pos w vw false →
      classifyOffset pos w vw x = none := by
    intro x h1 h2
    unfold classifyOffset
    rw [if_neg h1, if_neg h2]
  refine ⟨hsome, ?_, hnone, ?_, ?_⟩
  · intro x h
    unfold classifyOffset
    rw [if_pos h]
  · intro frames b hb
    unfold setOpenCalls at hb
    rcases List.mem_filterMap.mp hb with ⟨x, hx, hclass⟩
    rw [← hsome x b hclass]
    exact hx
  · intro frames hframes
    unfold setOpenCalls
    rw [List.filterMap_eq_nil_iff]
    intro x hx
    exact hnone x (hframes x hx).1 (hframes x hx).2

/-- Claim C3 witness: on a concrete left configuration, a trajectory of
intermediate frames followed by the open target produces exactly the one
setOpen call on the settling frame. -/
theorem c3_settlement_notification_witness :
    ((0:ℚ) = getDrawerTranslationX DrawerPosition.left 300 400 true) ∧
    setOpenCalls DrawerPosition.left 300 400 [-200, -100, -50] = [] :=
  ⟨(c3_settlement_notification DrawerPosition.left 300 400).1 0 true rfl,
    (c3_settlement_notification DrawerPosition.left 300 400).2.2.2.2
      [-200, -100, -50] (by decide)⟩

/-- Claim C4 counterexample: type front, left position, width 300,
viewport 400, drawer closed at offset -300, gesture starting at
touchX 350; after a rightward translation of just 1 (raw offset -299,
finger at 351) the clamped offset is already 0, so the drawer has moved
long before the cumulative translation reaches 50. -/
theorem c4_front_lag_counterexample :
    translateX .front .active .left 300 400 (-299) 351 = 0 ∧
    ((0:ℚ) ≠ -300) := by
  constructor
  · norm_num [translateX, touchDistance, minmax, jsMin, jsMax]
  · decide

/-- Claim C4 amended: for type front with an active gesture the
correction min(translationX - touchX + width, 0) for the left position,
or min(translationX - touchX, viewportWidth - width) for the right
position, is subtracted from the raw offset before clamping; and in the
width-300 scenario with the touch starting at 350 the lag holds for the
drawer OPEN at offset 0: the drawer does not move while the leftward
translation is still below 50, and afterwards the offset tracks the
translation one to one as translation + 50. -/
theorem c4_front_lag_amended :
    (∀ w vw t tx : ℚ, translateX .front .active .left w vw t tx =
      minmax (t - jsMin (t - tx + w) 0) (-w) 0) ∧
    (∀ w vw t tx : ℚ, translateX .front .active .right w vw t tx =
      minmax (t - jsMin (t - tx) (vw - w)) (vw - w) vw) ∧
    (∀ T : ℚ, -50 ≤ T →
      translateX .front .active .left 300 400 T (350 + T) = 0) ∧
    (∀ T : ℚ, -350 ≤ T → T ≤ -50 →
      translateX .front .active .left 300 400 T (350 + T) = T + 50) := by
  refine ⟨fun w vw t tx => rfl, fun w vw t tx => rfl, ?_, ?_⟩
  · intro T hT
    show minmax (T - touchDistance .front .active .left 300 400 T (350 + T))
        (-300) 0 = 0
    have hd : touchDistance .front .active .left 300 400 T (350 + T) = -50 := by
      show jsMin (T - (350 + T) + 300) 0 = -50
      unfold jsMin
      split_ifs with h <;> linarith
    rw [hd]
    unfold minmax jsMin jsMax
    split_ifs with h1 h2 <;> linarith
  · intro T hT1 hT2
    show minmax (T - touchDistance .front .active .left 300 400 T (350 + T))
        (-300) 0 = T + 50
    have hd : touchDistance .front .active .left 300 400 T (350 + T) = -50 := by
      show jsMin (T - (350 + T) + 300) 0 = -50
      unfold jsMin
      split_ifs with h <;> linarith
    rw [hd]
    unfold minmax jsMin jsMax
    split_ifs with h1 h2 <;> linarith

/-- Claim C4 witness: with the drawer open at offset 0, a leftward
translation of 30 leaves the drawer unmoved and one of 60 drags it to
-10. -/
theorem c4_front_lag_amended_witness :
    translateX .front .active .left 300 400 (-30) (350 + -30) = 0 ∧
    translateX .front .active .left 300 400 (-60) (350 + -60) = -60 + 50 :=
  ⟨c4_front_lag_amended.2.2.1 (-30) (by decide),
    c4_front_lag_amended.2.2.2 (-60) (by decide) (by decide)⟩

/-- Claim C5: repeated requestOpen(true) calls converge to the same final
offset, 0 for a left drawer and viewportWidth - width for a right drawer
(the closed targets being -width and viewportWidth); the first settle on
the open target emits one setOpen(true) call and subsequent frames
resting at the same target emit none. -/
theorem c5_settle_idempotent (pos : DrawerPosition) (w vw : ℚ) :
    (∀ (st : ToggleState) (opn : Bool),
      applyToggle pos w vw (applyToggle pos w vw st opn) opn =
        applyToggle pos w vw st opn) ∧
    (toggleDrawer .left w vw true).springTarget = 0 ∧
    (toggleDrawer .right w vw true).springTarget = vw - w ∧
    (toggleDrawer .left w vw false).springTarget = -w ∧
    (toggleDrawer .right w vw false).springTarget = vw ∧
    (∀ prev : ℚ, prev ≠ getDrawerTranslationX pos w vw true →
      setOpenCallsOnChange pos w vw prev
        [getDrawerTranslationX pos w vw true] = [true]) ∧
    (∀ n : ℕ,
      setOpenCallsOnChange pos w vw (getDrawerTranslationX pos w vw true)
        (List.replicate n (getDrawerTranslationX pos w vw true)) = []) := by
  refine ⟨fun st opn => rfl, rfl, rfl, rfl, rfl, ?_, ?_⟩
  · intro prev hprev
    unfold setOpenCallsOnChange
    rw [if_neg (Ne.symm hprev)]
    unfold classifyOffset
    rw [if_pos rfl]
    rfl
  · intro n
    induction n with
    | zero => rfl
    | succ k ih =>
        show setOpenCallsOnChange pos w vw _
          (getDrawerTranslationX pos w vw true :: List.replicate k _) = []
        unfold setOpenCallsOnChange
        rw [if_pos rfl]
        exact ih

/-- Claim C5 witness: left drawer of width 300 in a 400 viewport settling
open from the closed offset fires setOpen(true) once, and three further
frames at the open target fire nothing. -/
theorem c5_settle_idempotent_witness :
    setOpenCallsOnChange DrawerPosition.left 300 400 (-300)
      [getDrawerTranslationX DrawerPosition.left 300 400 true] = [true] ∧
    setOpenCallsOnChange DrawerPosition.left 300 400
      (getDrawerTranslationX DrawerPosition.left 300 400 true)
      (List.replicate 3 (getDrawerTranslationX DrawerPosition.left 300 400 true)) =
      [] :=
  ⟨(c5_settle_idempotent DrawerPosition.left 300 400).2.2.2.2.2.1 (-300)
      (by decide),
    (c5_settle_idempotent DrawerPosition.left 300 400).2.2.2.2.2.2 3⟩

/-- Claim C9 counterexample: a gesture start followed immediately by
component unmount leaves the interaction handle live — the source has no
teardown that clears interactionHandleRef, so the lock stays acquired
across the unmount. -/
theorem c9_interaction_lock_counterexample :
    interactionHeldAfter [DrawerEvent.gestureStart, DrawerEvent.unmount] =
      true :=
  rfl

/-- Claim C9 amended: the interaction lock is acquired exactly on gesture
start and released exactly on gesture end; unmount leaves the handle
untouched, so a gesture still in flight at unmount keeps the lock
acquired. -/
theorem c9_interaction_lock_amended :
    (∀ es : List DrawerEvent,
      interactionHeldAfter (es ++ [DrawerEvent.gestureStart]) = true) ∧
    (∀ es : List DrawerEvent,
      interactionHeldAfter (es ++ [DrawerEvent.gestureEnd]) = false) ∧
    (∀ es : List DrawerEvent,
      interactionHeldAfter (es ++ [DrawerEvent.unmount]) =
        interactionHeldAfter es) := by
  refine ⟨?_, ?_, ?_⟩ <;>
    intro es <;>
    simp [interactionHeldAfter, List.foldl_append, interactionStep]

/-- Claim C10: the derived progress is a normalized 0..1 value on the
left travel range, but for a right drawer narrower than the viewport it
evaluates to (2*width - viewportWidth)/width < 1 at the fully-open offset
and to a negative value at the fully-closed offset. -/
theorem c10_progress_not_normalized (w vw : ℚ) (hw : 0 < w) (hvw : w < vw) :
    (∀ x : ℚ, -w ≤ x → x ≤ 0 → 0 ≤ progress w x ∧ progress w x ≤ 1) ∧
    progress w (getDrawerTranslationX .right w vw true) = (2 * w - vw) / w ∧
    (2 * w - vw) / w < 1 ∧
    progress w (getDrawerTranslationX .right w vw false) = (w - vw) / w ∧
    (w - vw) / w < 0 := by
  refine ⟨?_, ?_, ?_, ?_, ?_⟩
  · intro x hx1 hx2
    have habs : |x| = -x := abs_of_nonpos hx2
    unfold progress
    rw [habs]
    constructor
    · apply div_nonneg _ (le_of_lt hw)
      linarith
    · rw [div_le_one hw]
      linarith
  · show (w - |vw - w|) / w = (2 * w - vw) / w
    rw [abs_of_nonneg (by linarith)]
    ring_nf
  · rw [div_lt_one hw]
    linarith
  · show (w - |vw|) / w = (w - vw) / w
    rw [abs_of_nonneg (by linarith)]
  · apply div_neg_of_neg_of_pos _ hw
    linarith

/-- Claim C10 witness: width 300 in a 400 viewport — the left range stays
normalized while the right open and closed targets give progress 2/3 and
a negative value. -/
theorem c10_progress_not_normalized_witness :
    (0 ≤ progress 300 (-100) ∧ progress 300 (-100) ≤ 1) ∧
    progress 300 (getDrawerTranslationX .right 300 400 false) =
      ((300:ℚ) - 400) / 300 ∧
    ((300:ℚ) - 400) / 300 < 0 :=
  ⟨(c10_progress_not_normalized 300 400 (by decide) (by decide)).1 (-100)
      (by decide) (by decide),
    (c10_progress_not_normalized 300 400 (by decide) (by decide)).2.2.2.1,
    (c10_progress_not_normalized 300 400 (by decide) (by decide)).2.2.2.2⟩

end Drawer
